import Mathlib

/-!
Verification development for the Traffix network-monitoring system.

The repository ships the dashboard client (`src/dashboard/js/scripts.js`);
its functions (`updateDashboard`, `fill`, `updateLog`, `addPing`,
`confirmReset`, the `socket.onmessage` handler and the `countryCoords`
table) are embedded below directly from that source.  The server-side core
(security-heuristics engine, aggregation query engine, reset controller,
broadcast fan-out) is not part of the shipped sources; those components are
modelled from the specification, with a doc comment marking each such
definition.

All timestamps and durations are natural numbers (an abstract clock).
-/

/-! ### Security classification and the port-scan engine -/

/-- Security classification attached to an event: none, port-scan, or
blacklist-hit. -/
inductive SecClass where
  | nothing
  | portScan
  | blacklistHit
deriving DecidableEq, Repr

/-- Modelled from the spec: configuration of the Security Heuristics Engine —
sliding window `W`, distinct-port threshold `K`, and re-alert `cooldown`. -/
structure PSConfig where
  W : Nat
  K : Nat
  cooldown : Nat
deriving DecidableEq, Repr

/-- Modelled from the spec: `PortScanWindow`, the per (agent id, source IP)
mutable state — an ordered sequence of (destination port, timestamp) pairs
bounded to the sliding window, plus a last-alert timestamp. -/
structure PSState where
  window : List (Nat × Nat)
  lastAlert : Option Nat
deriving DecidableEq, Repr

/-- The initial (empty) port-scan state for a pair. -/
def initPS : PSState := ⟨[], none⟩

/-- Modelled from the spec: lazy eviction — entries older than the window
`W` (relative to the current event time `t`) are dropped on each touch. -/
def evictOld (cfg : PSConfig) (t : Nat) (w : List (Nat × Nat)) : List (Nat × Nat) :=
  w.filter (fun e => t - e.2 ≤ cfg.W)

/-- Number of distinct destination ports present in a window. -/
def distinctPorts (w : List (Nat × Nat)) : Nat :=
  ((w.map Prod.fst).dedup).length

/-- Modelled from the spec: the cooldown gate — true when no alert has been
emitted yet for the pair, or at least `cooldown` time has elapsed since the
last alert. -/
def cooldownOK (cfg : PSConfig) (la : Option Nat) (t : Nat) : Bool :=
  match la with
  | none => true
  | some s => decide (cfg.cooldown ≤ t - s)

/-- Modelled from the spec: one step of the port-scan heuristic for a single
(agent id, source IP) pair.  The event is a (destination port, timestamp)
pair; entries older than `W` are evicted, the new entry is inserted, and a
port-scan fires iff the distinct-port count meets threshold `K` and the
cooldown gate is open, in which case the last-alert timestamp is updated. -/
def psStep (cfg : PSConfig) (s : PSState) (ev : Nat × Nat) : Bool × PSState :=
  let w := (ev.1, ev.2) :: evictOld cfg ev.2 s.window
  if cfg.K ≤ distinctPorts w ∧ cooldownOK cfg s.lastAlert ev.2 = true then
    (true, ⟨w, some ev.2⟩)
  else
    (false, ⟨w, s.lastAlert⟩)

/-- State of the engine for one pair after processing the first `n` events of
the trace `es` (events beyond the trace are irrelevant; `getD` pads). -/
def psStateAt (cfg : PSConfig) (es : List (Nat × Nat)) : Nat → PSState
  | 0 => initPS
  | n + 1 => (psStep cfg (psStateAt cfg es n) (es.getD n (0, 0))).2

/-- Whether the engine emits a port-scan classification at index `i` of the
trace. -/
def psOut (cfg : PSConfig) (es : List (Nat × Nat)) (i : Nat) : Bool :=
  (psStep cfg (psStateAt cfg es i) (es.getD i (0, 0))).1

/-- The window contents right after eviction and insertion at index `i`. -/
def psWin (cfg : PSConfig) (es : List (Nat × Nat)) (i : Nat) : List (Nat × Nat) :=
  ((es.getD i (0, 0)).1, (es.getD i (0, 0)).2) ::
    evictOld cfg (es.getD i (0, 0)).2 (psStateAt cfg es i).window

/-- Distinct-port count seen by the engine when it evaluates index `i`. -/
def psCount (cfg : PSConfig) (es : List (Nat × Nat)) (i : Nat) : Nat :=
  distinctPorts (psWin cfg es i)

/-- Timestamp of the event at index `i` of a trace. -/
def tAt (es : List (Nat × Nat)) (i : Nat) : Nat := (es.getD i (0, 0)).2

/-- Modelled from the spec: the full Security Heuristics Engine step for one
event — an O(1)-style membership test of the destination against the current
blacklist, and the port-scan heuristic; blacklist-hit takes precedence, and
at most one classification is assigned. -/
def classify (cfg : PSConfig) (bl : List String) (s : PSState) (dest : String)
    (port t : Nat) : SecClass × PSState :=
  let r := psStep cfg s (port, t)
  if dest ∈ bl then (SecClass.blacklistHit, r.2)
  else if r.1 then (SecClass.portScan, r.2)
  else (SecClass.nothing, r.2)

/-! ### Data model: events, agents, the durable store -/

/-- `TrafficEvent`: immutable enriched flow record (spec §3). -/
structure TrafficEvent where
  id : Nat
  agent_id : String
  ts : Nat
  source_ip : String
  source_port : Nat
  destination_ip : String
  destination_port : Nat
  protocol : String
  byte_count : Nat
  direction : String
  software_name : String
  process_id : Nat
  country : String
  security : SecClass
deriving DecidableEq, Repr

/-- `Agent`: identity registered by a capture source (spec §3). -/
structure Agent where
  id : Nat
  name : String
  address : String
  lastSeen : Nat
deriving DecidableEq, Repr

/-- The durable store: persisted events, known agents, and the next identity
value used for fresh identifiers. -/
structure Store where
  events : List TrafficEvent
  agents : List Agent
  nextId : Nat
deriving DecidableEq, Repr

/-- Persisting an event assigns it the store's next fresh identifier. -/
def insertEvent (s : Store) (e : TrafficEvent) : Store :=
  ⟨{ e with id := s.nextId } :: s.events, s.agents, s.nextId + 1⟩

/-! ### Administrative reset (server side modelled, dashboard side from
`confirmReset` in src/dashboard/js/scripts.js) -/

/-- Shape of the reset endpoint's JSON response, as read by the dashboard:
`status` and `message` fields. -/
structure ResetResponse where
  status : String
  message : String
deriving DecidableEq, Repr

/-- Modelled from the spec: the Administrative Reset Controller — a single
no-argument destructive action that either clears all TrafficEvent and Agent
history as one atomic unit (leaving the schema and identity sequencing
intact) or fails as a whole, leaving prior state fully intact, with a
failure reason. -/
def resetDb (reachable : Bool) (s : Store) : ResetResponse × Store :=
  if reachable then
    (⟨"success", ""⟩, ⟨[], [], s.nextId⟩)
  else
    (⟨"error", "store unreachable"⟩, s)

/-- What `confirmReset` reports to the user. -/
inductive ResetReport where
  | success
  | failure (msg : String)
  | connectFail
deriving DecidableEq, Repr

/-- The decision logic of `confirmReset` (src/dashboard/js/scripts.js
lines 106-129): if the user cancels the dialog nothing happens; a thrown
fetch is reported as a connection failure; a response with status
`success` is reported as success, anything else as `Error: ` plus the
response's message. -/
def confirmReset (isSure : Bool) (resp : Option ResetResponse) : Option ResetReport :=
  if isSure then
    match resp with
    | none => some ResetReport.connectFail
    | some r =>
      if r.status = "success" then some ResetReport.success
      else some (ResetReport.failure ("Error: " ++ r.message))
  else none

/-! ### Aggregation query engine (modelled) and timeframe filter -/

/-- Modelled from the spec: the timeframe predicate — a timestamp is counted
iff it falls in the half-open interval from `now - T` (inclusive) to `now`
(exclusive). -/
def inTimeframe (now T ts : Nat) : Bool :=
  decide (now - T ≤ ts) && decide (ts < now)

/-- The events of a list that fall inside the aggregation timeframe. -/
def aggWindow (now T : Nat) (evs : List TrafficEvent) : List TrafficEvent :=
  evs.filter (fun e => inTimeframe now T e.ts)

/-- A (label, value) pair of an aggregation result. -/
structure LV where
  label : String
  value : Nat
deriving DecidableEq, Repr

/-- Result ordering: descending by value, ties broken by label. -/
def pairRel (a b : LV) : Prop :=
  b.value < a.value ∨ (a.value = b.value ∧ a.label ≤ b.label)

instance : DecidableRel pairRel := fun a b => by
  unfold pairRel; infer_instance

instance : IsTotal LV pairRel := by
  constructor
  intro a b
  rcases lt_trichotomy a.value b.value with h | h | h
  · exact Or.inr (Or.inl h)
  · rcases le_total a.label b.label with hl | hl
    · exact Or.inl (Or.inr ⟨h, hl⟩)
    · exact Or.inr (Or.inr ⟨h.symm, hl⟩)
  · exact Or.inl (Or.inl h)

instance : IsTrans LV pairRel := by
  constructor
  intro a b c hab hbc
  rcases hab with h1 | ⟨h1, l1⟩
  · rcases hbc with h2 | ⟨h2, _⟩
    · exact Or.inl (h2.trans h1)
    · exact Or.inl (h2 ▸ h1)
  · rcases hbc with h2 | ⟨h2, l2⟩
    · exact Or.inl (h1 ▸ h2)
    · exact Or.inr ⟨h1.trans h2, l1.trans l2⟩

/-- Modelled from the spec: aggregation results are returned sorted by
descending value, ties broken by label for determinism. -/
def sortPairs (l : List LV) : List LV :=
  List.insertionSort pairRel l

/-- Aggregation dimensions (spec §4.5). -/
inductive Dimension where
  | countries
  | softwares
  | ips
  | bandwidth
deriving DecidableEq, Repr

/-- The grouping label an event contributes to, per dimension. -/
def evLabel (d : Dimension) (e : TrafficEvent) : String :=
  match d with
  | Dimension.countries => e.country
  | Dimension.softwares => e.software_name
  | Dimension.ips => e.destination_ip
  | Dimension.bandwidth => e.software_name

/-- The weight an event contributes: 1 for counting dimensions, the byte
count for bandwidth. -/
def evWeight (d : Dimension) (e : TrafficEvent) : Nat :=
  match d with
  | Dimension.bandwidth => e.byte_count
  | _ => 1

/-- Add weight `w` to the entry for `lab` in an accumulator, appending a new
entry when absent. -/
def bump (acc : List LV) (lab : String) (w : Nat) : List LV :=
  match acc with
  | [] => [⟨lab, w⟩]
  | p :: rest =>
    if p.label = lab then ⟨p.label, p.value + w⟩ :: rest
    else p :: bump rest lab w

/-- Grouped totals of a list of events along a dimension. -/
def groupTotals (d : Dimension) (evs : List TrafficEvent) : List LV :=
  evs.foldl (fun acc e => bump acc (evLabel d e) (evWeight d e)) []

/-- Whether an event passes the optional agent filter. -/
def agentMatch (filt : Option String) (e : TrafficEvent) : Bool :=
  match filt with
  | none => true
  | some a => a == e.agent_id

/-- Modelled from the spec: the Aggregation Query Engine — grouped counts
(or summed byte counts converted to whole megabytes for bandwidth) over the
events in `[now - T, now)` passing the agent filter, sorted descending by
value with ties broken by label. -/
def aggQuery (d : Dimension) (T : Nat) (filt : Option String) (now : Nat)
    (s : Store) : List LV :=
  let evs := (aggWindow now T s.events).filter (agentMatch filt)
  let g := groupTotals d evs
  let g2 := match d with
    | Dimension.bandwidth => g.map (fun p => ⟨p.label, p.value / 1048576⟩)
    | _ => g
  sortPairs g2

/-! ### Dashboard charts: `fill` and `updateDashboard`
(src/dashboard/js/scripts.js lines 62-85) -/

/-- Chart data as the dashboard holds it: parallel label and data arrays. -/
structure Chart where
  labels : List String
  data : List Nat
deriving DecidableEq, Repr

/-- A chart with no labels and no data. -/
def Chart.empty : Chart := ⟨[], []⟩

/-- `fill` (scripts.js lines 82-85): pushes each item's label and value onto
the chart's arrays, in the order the items arrive. -/
def fill (c : Chart) (items : List LV) : Chart :=
  ⟨c.labels ++ items.map LV.label, c.data ++ items.map LV.value⟩

/-- The four charts of the dashboard. -/
structure DashCharts where
  countryChart : Chart
  softwareChart : Chart
  ipChart : Chart
  bandwidthChart : Chart
deriving DecidableEq, Repr

/-- The stats response consumed by `updateDashboard`: one (label, value)
list per dimension. -/
structure StatsResponse where
  countries : List LV
  softwares : List LV
  ips : List LV
  bandwidth : List LV
deriving DecidableEq, Repr

/-- `updateDashboard` (scripts.js lines 69-80): every chart's labels and
data are cleared first, then each chart is filled from the response. -/
def updateDashboard (d : DashCharts) (resp : StatsResponse) : DashCharts :=
  let cleared : DashCharts := ⟨Chart.empty, Chart.empty, Chart.empty, Chart.empty⟩
  ⟨fill cleared.countryChart resp.countries,
   fill cleared.softwareChart resp.softwares,
   fill cleared.ipChart resp.ips,
   fill cleared.bandwidthChart resp.bandwidth⟩

/-! ### Broadcast fan-out (modelled) -/

/-- `Subscriber`: a live viewer connection with an optional agent-id
filter. -/
structure Subscriber where
  sid : Nat
  agentFilter : Option String
deriving DecidableEq, Repr

/-- Modelled from the spec: whether a subscriber's optional agent-id filter
matches an event (no filter matches everything). -/
def filterMatches (sub : Subscriber) (e : TrafficEvent) : Bool :=
  match sub.agentFilter with
  | none => true
  | some a => a == e.agent_id

/-- Modelled from the spec: the Ingestion and Broadcast Service pushes an
event to exactly the connected subscribers whose filter matches. -/
def pushTargets (subs : List Subscriber) (e : TrafficEvent) : List Subscriber :=
  subs.filter (fun sub => filterMatches sub e)

/-! ### Live-message fields (spec §6) versus the fields the dashboard
reads (src/dashboard/js/scripts.js lines 33-45 and 98-105) -/

/-- Modelled from the spec: the fields of a live event message — agent
identifier, direction, source/destination IP and port, protocol, byte
count, resolved software name, process id, resolved country, optional
security-event classification and its target. -/
def liveMessageFields : List String :=
  ["agent_id", "direction", "source_ip", "source_port",
   "destination_ip", "destination_port", "protocol", "byte_count",
   "software_name", "process_id", "country", "security_event",
   "security_target"]

/-- The fields the dashboard reads from a received websocket message:
`socket.onmessage` reads `security_event`, `destination_ip`, `direction`,
`country`, `agent_id`, `software_name`; `updateLog` additionally reads
`alert` (scripts.js line 101). -/
def dashboardReadFields : List String :=
  ["security_event", "destination_ip", "direction", "country",
   "agent_id", "software_name", "alert"]

/-! ### Live log (`updateLog`, scripts.js lines 98-105) -/

/-- `updateLog`: prepends the new entry to the log list (newest first) and,
when the list then exceeds 50 entries, removes the last (oldest) one. -/
def updateLog (log : List String) (entry : String) : List String :=
  let l := entry :: log
  if 50 < l.length then l.dropLast else l

/-! ### Map pings (`addPing` and `countryCoords`, scripts.js
lines 9-13 and 47-51) -/

/-- The `countryCoords` lookup table (scripts.js lines 9-13); coordinates
are exact decimal latitude/longitude pairs. -/
def countryCoords (c : String) : Option (ℚ × ℚ) :=
  if c = "Israel" then some (310461 / 10000, 348516 / 10000)
  else if c = "United States" then some (370902 / 10000, -957129 / 10000)
  else if c = "Germany" then some (511657 / 10000, 104515 / 10000)
  else if c = "Netherlands" then some (521326 / 10000, 52913 / 10000)
  else if c = "United Kingdom" then some (553781 / 10000, -34360 / 10000)
  else if c = "Unknown" then some (0, 0)
  else none

/-- `addPing` (scripts.js lines 47-51): the ping is placed at the table
coordinates for the country when present, and otherwise at
`[Math.random() * 50, Math.random() * 50]`; the two `Math.random()` draws
are passed here explicitly as `r1` and `r2`. -/
def addPing (country : String) (r1 r2 : ℚ) : ℚ × ℚ :=
  match countryCoords country with
  | some p => p
  | none => (r1 * 50, r2 * 50)

/-! ### Concrete sample data used by witnesses -/

/-- A concrete sample event: agent `A`, timestamp 100, outgoing TCP flow to
the blacklisted example address. -/
def sampleEvent : TrafficEvent :=
  ⟨0, "A", 100, "10.0.0.1", 1111, "203.0.113.5", 445, "TCP", 2048, "out",
   "chrome", 77, "Israel", SecClass.nothing⟩

/-- Example engine configuration: window 60, threshold 3 distinct ports,
cooldown 60. -/
def psCfgEx : PSConfig := ⟨60, 3, 60⟩

/-- Example single-pair trace: four events touching distinct ports 1..4 at
times 0..3. -/
def psTraceEx : List (Nat × Nat) := [(1, 0), (2, 1), (3, 2), (4, 3)]

/-- Example store holding the sample event, with identity sequence at 5. -/
def storeEx : Store := ⟨[sampleEvent], [], 5⟩

/-! ## Helper lemmas for the port-scan engine -/

/-- A port-scan fires at index `i` exactly when the distinct-port count
meets the threshold and the cooldown gate is open. -/
theorem psOut_true_iff (cfg : PSConfig) (es : List (Nat × Nat)) (i : Nat) :
    psOut cfg es i = true ↔
      cfg.K ≤ psCount cfg es i ∧
      cooldownOK cfg (psStateAt cfg es i).lastAlert (tAt es i) = true := by
  simp only [psOut, psStep, psCount, psWin, tAt]
  split
  · rename_i h
    simpa using h
  · rename_i h
    simpa using h

/-- The last-alert timestamp after one more step: updated to the current
event time when an alert fired, unchanged otherwise. -/
theorem lastAlert_succ (cfg : PSConfig) (es : List (Nat × Nat)) (n : Nat) :
    (psStateAt cfg es (n + 1)).lastAlert =
      if psOut cfg es n = true then some (tAt es n)
      else (psStateAt cfg es n).lastAlert := by
  simp only [psStateAt, psOut, psStep, tAt]
  split
  · simp
  · simp

/-- While no alert has been emitted, the last-alert timestamp stays empty. -/
theorem lastAlert_none_of_no_out (cfg : PSConfig) (es : List (Nat × Nat)) :
    ∀ n, (∀ j, j < n → psOut cfg es j = false) →
      (psStateAt cfg es n).lastAlert = none := by
  intro n
  induction n with
  | zero => intro _; rfl
  | succ m ih =>
    intro hall
    rw [lastAlert_succ]
    have hm : psOut cfg es m = false := hall m (Nat.lt_succ_self m)
    simp only [hm, Bool.false_eq_true, if_false]
    exact ih (fun j hj => hall j (Nat.lt_succ_of_lt hj))

/-- Once an alert fired at index `i`, every later state carries a last-alert
timestamp at least as large as the alert time. -/
theorem lastAlert_ge_after_out (cfg : PSConfig) (es : List (Nat × Nat)) (i : Nat)
    (hmono : ∀ k, k < es.length → ∀ j, j ≤ k → tAt es j ≤ tAt es k)
    (hout : psOut cfg es i = true) :
    ∀ n, i < n → n ≤ es.length →
      ∃ la, (psStateAt cfg es n).lastAlert = some la ∧ tAt es i ≤ la := by
  intro n
  induction n with
  | zero => intro him _; exact absurd him (Nat.not_lt_zero i)
  | succ m ih =>
    intro him hlen
    rcases Nat.lt_or_ge i m with hlt | hge
    · by_cases ho : psOut cfg es m = true
      · rw [lastAlert_succ, if_pos ho]
        exact ⟨tAt es m, rfl, hmono m (by omega) i (by omega)⟩
      · obtain ⟨la, hla, hle⟩ := ih hlt (by omega)
        rw [lastAlert_succ, if_neg ho]
        exact ⟨la, hla, hle⟩
    · have hieq : i = m := by omega
      subst hieq
      rw [lastAlert_succ, if_pos hout]
      exact ⟨tAt es i, rfl, Nat.le_refl _⟩

/-! ## Claim theorems -/

/-- Claim C1: over any single-pair trace with nondecreasing timestamps, at
the first index where the distinct-port count within the window reaches the
threshold `K` the engine emits a port-scan classification, it emits none
before that index, and it emits no further port-scan classification at any
later index whose event time is within `cooldown` of the alert time. -/
theorem portscan_single_alert (cfg : PSConfig) (es : List (Nat × Nat)) (i : Nat)
    (hmono : ∀ k, k < es.length → ∀ j, j ≤ k → tAt es j ≤ tAt es k)
    (hi : i < es.length)
    (hK : cfg.K ≤ psCount cfg es i)
    (hfirst : ∀ j, j < i → psCount cfg es j < cfg.K) :
    psOut cfg es i = true ∧
    (∀ j, j < i → psOut cfg es j = false) ∧
    (∀ j, i < j → j < es.length → tAt es j - tAt es i < cfg.cooldown →
      psOut cfg es j = false) := by
  have hbefore : ∀ j, j < i → psOut cfg es j = false := by
    intro j hj
    cases hb : psOut cfg es j with
    | false => rfl
    | true =>
      have hKj := ((psOut_true_iff cfg es j).mp hb).1
      exact absurd hKj (Nat.not_le.mpr (hfirst j hj))
  have hnone : (psStateAt cfg es i).lastAlert = none :=
    lastAlert_none_of_no_out cfg es i hbefore
  have hout : psOut cfg es i = true := by
    apply (psOut_true_iff cfg es i).mpr
    refine ⟨hK, ?_⟩
    rw [hnone]
    rfl
  refine ⟨hout, hbefore, ?_⟩
  intro j hij hjlen hcd
  cases hb : psOut cfg es j with
  | false => rfl
  | true =>
    exfalso
    obtain ⟨la, hla, hle⟩ :=
      lastAlert_ge_after_out cfg es i hmono hout j hij (Nat.le_of_lt hjlen)
    have hcool := ((psOut_true_iff cfg es j).mp hb).2
    rw [hla] at hcool
    have hcle : cfg.cooldown ≤ tAt es j - la := by
      simpa [cooldownOK] using hcool
    have hsub : tAt es j - la ≤ tAt es j - tAt es i :=
      Nat.sub_le_sub_left hle _
    omega

/-- Witness for C1: on the example trace the threshold `K = 3` is first
reached at index 2, where the single alert fires; indices 0 and 1 emit
nothing, and index 3 (1 time unit later, within the 60-unit cooldown) emits
nothing. -/
theorem portscan_single_alert_witness :
    ((∀ k, k < psTraceEx.length → ∀ j, j ≤ k → tAt psTraceEx j ≤ tAt psTraceEx k) ∧
     2 < psTraceEx.length ∧
     psCfgEx.K ≤ psCount psCfgEx psTraceEx 2 ∧
     (∀ j, j < 2 → psCount psCfgEx psTraceEx j < psCfgEx.K)) ∧
    (psOut psCfgEx psTraceEx 2 = true ∧
     (∀ j, j < 2 → psOut psCfgEx psTraceEx j = false) ∧
     (∀ j, 2 < j → j < psTraceEx.length →
        tAt psTraceEx j - tAt psTraceEx 2 < psCfgEx.cooldown →
        psOut psCfgEx psTraceEx j = false)) :=
  ⟨⟨by decide, by decide, by decide, by decide⟩,
   portscan_single_alert psCfgEx psTraceEx 2 (by decide) (by decide)
     (by decide) (by decide)⟩

/-- Claim C2: the engine assigns at most one classification per event, and
whenever the destination is in the current blacklist the classification is
blacklist-hit — never port-scan — regardless of the port-scan state. -/
theorem blacklist_precedence (cfg : PSConfig) (bl : List String) (s : PSState)
    (dest : String) (port t : Nat) (h : dest ∈ bl) :
    (classify cfg bl s dest port t).1 = SecClass.blacklistHit ∧
    (classify cfg bl s dest port t).1 ≠ SecClass.portScan := by
  unfold classify
  simp [h]

/-- Witness for C2: an event to the blacklisted example address is
classified blacklist-hit even from a fresh port-scan state. -/
theorem blacklist_precedence_witness :
    "203.0.113.5" ∈ ["203.0.113.5"] ∧
    ((classify psCfgEx ["203.0.113.5"] initPS "203.0.113.5" 445 0).1 =
       SecClass.blacklistHit ∧
     (classify psCfgEx ["203.0.113.5"] initPS "203.0.113.5" 445 0).1 ≠
       SecClass.portScan) :=
  ⟨by decide,
   blacklist_precedence psCfgEx ["203.0.113.5"] initPS "203.0.113.5" 445 0
     (by decide)⟩

/-- Claim C3: the reset either clears all event and agent history as one
unit — after which the response says success, the dashboard reports success,
and an insert into the cleared store reuses no identifier of a pre-reset
event — or it fails as a whole with a nonempty reason, leaving the store
exactly as it was, with the dashboard reporting that reason; a failed fetch
is reported as a connection failure. -/
theorem reset_atomic_reported (reachable : Bool) (s : Store) (e : TrafficEvent)
    (hids : ∀ ev ∈ s.events, ev.id < s.nextId) :
    (((resetDb reachable s).1.status = "success" ∧
      (resetDb reachable s).2.events = [] ∧
      (resetDb reachable s).2.agents = [] ∧
      (∀ ev ∈ s.events, ∀ x ∈ (insertEvent (resetDb reachable s).2 e).events,
         ev.id ≠ x.id) ∧
      confirmReset true (some (resetDb reachable s).1) =
        some ResetReport.success) ∨
     ((resetDb reachable s).1.status ≠ "success" ∧
      (resetDb reachable s).1.message ≠ "" ∧
      (resetDb reachable s).2 = s ∧
      confirmReset true (some (resetDb reachable s).1) =
        some (ResetReport.failure ("Error: " ++ (resetDb reachable s).1.message)))) ∧
    confirmReset true none = some ResetReport.connectFail := by
  constructor
  · cases reachable with
    | true =>
      left
      refine ⟨rfl, rfl, rfl, ?_, rfl⟩
      intro ev hev x hx
      have hxid : x.id = s.nextId := by
        simp [resetDb, insertEvent] at hx
        rw [hx]
      have := hids ev hev
      omega
    | false =>
      right
      exact ⟨by simp [resetDb], by simp [resetDb], rfl,
        by simp [resetDb, confirmReset]⟩
  · rfl

/-- Witness for C3: resetting the example store (one event, identity
sequence at 5) succeeds, clears everything, and the sample event's
identifier is not reused by the next insert. -/
theorem reset_atomic_reported_witness :
    (∀ ev ∈ storeEx.events, ev.id < storeEx.nextId) ∧
    ((((resetDb true storeEx).1.status = "success" ∧
       (resetDb true storeEx).2.events = [] ∧
       (resetDb true storeEx).2.agents = [] ∧
       (∀ ev ∈ storeEx.events,
          ∀ x ∈ (insertEvent (resetDb true storeEx).2 sampleEvent).events,
            ev.id ≠ x.id) ∧
       confirmReset true (some (resetDb true storeEx).1) =
         some ResetReport.success) ∨
      ((resetDb true storeEx).1.status ≠ "success" ∧
       (resetDb true storeEx).1.message ≠ "" ∧
       (resetDb true storeEx).2 = storeEx ∧
       confirmReset true (some (resetDb true storeEx).1) =
         some (ResetReport.failure ("Error: " ++ (resetDb true storeEx).1.message)))) ∧
     confirmReset true none = some ResetReport.connectFail) :=
  ⟨by decide, reset_atomic_reported true storeEx sampleEvent (by decide)⟩

/-- Counterexample for C4: with `now = 100` and timeframe `T = 10`, the
sample event whose timestamp is exactly `now` is NOT counted — the
timeframe filter is end-exclusive, contradicting the claim that an event at
exactly `now` is included. -/
theorem timeframe_now_excluded_cex :
    sampleEvent.ts = 100 ∧
    inTimeframe 100 10 100 = false ∧
    aggWindow 100 10 [sampleEvent] = [] := by
  refine ⟨rfl, rfl, ?_⟩
  decide

/-- Claim C4 (amended): an aggregation query with timeframe `T` at time
`now` counts exactly the events with timestamp in the half-open interval
from `now - T` (inclusive) to `now` (exclusive): an event exactly at
`now - T` is included, an event strictly older is excluded, and an event at
exactly `now` is excluded. -/
theorem timeframe_boundaries (now T : Nat) (h1 : T ≤ now) (h2 : 0 < T) :
    inTimeframe now T (now - T) = true ∧
    inTimeframe now T now = false ∧
    (∀ u, u < now - T → inTimeframe now T u = false) ∧
    (∀ (e : TrafficEvent) (evs : List TrafficEvent),
       e ∈ aggWindow now T evs ↔ e ∈ evs ∧ now - T ≤ e.ts ∧ e.ts < now) := by
  refine ⟨?_, ?_, ?_, ?_⟩
  · have hlt : now - T < now := Nat.sub_lt (Nat.lt_of_lt_of_le h2 h1) h2
    simp [inTimeframe, hlt]
  · simp [inTimeframe]
  · intro u hu
    simp only [inTimeframe, Bool.and_eq_false_iff, decide_eq_false_iff_not]
    left
    omega
  · intro e evs
    simp [aggWindow, List.mem_filter, inTimeframe, and_assoc]

/-- Witness for C4 (amended), at `now = 100`, `T = 10`: timestamp 90 is
included, timestamp 100 is excluded, anything below 90 is excluded, and
membership in the aggregation window is exactly the interval condition. -/
theorem timeframe_boundaries_witness :
    (10 ≤ 100 ∧ 0 < 10) ∧
    (inTimeframe 100 10 (100 - 10) = true ∧
     inTimeframe 100 10 100 = false ∧
     (∀ u, u < 100 - 10 → inTimeframe 100 10 u = false) ∧
     (∀ (e : TrafficEvent) (evs : List TrafficEvent),
        e ∈ aggWindow 100 10 evs ↔ e ∈ evs ∧ 100 - 10 ≤ e.ts ∧ e.ts < 100)) :=
  ⟨by decide, timeframe_boundaries 100 10 (by decide) (by decide)⟩

/-- Claim C5: every aggregation query returns its (label, value) pairs
sorted by descending value with ties broken by label (`sortPairs` moreover
only reorders, it is a permutation), and the dashboard's `fill` pushes the
received pairs onto a cleared chart in exactly the order received. -/
theorem agg_sorted_and_fill_in_order (d : Dimension) (T : Nat)
    (filt : Option String) (now : Nat) (s : Store) (l items : List LV) :
    List.Sorted pairRel (aggQuery d T filt now s) ∧
    List.Perm (sortPairs l) l ∧
    (fill Chart.empty items).labels = items.map LV.label ∧
    (fill Chart.empty items).data = items.map LV.value := by
  refine ⟨?_, List.perm_insertionSort pairRel l, ?_, ?_⟩
  · unfold aggQuery sortPairs
    exact List.sorted_insertionSort pairRel _
  · simp [fill, Chart.empty]
  · simp [fill, Chart.empty]

/-- Claim C6: the aggregation result depends only on the stored events (so
repeating the same query with no new events yields identical results), and
`updateDashboard` clears every chart before filling it, so its outcome is
independent of the previous chart contents — two refreshes with identical
responses yield identical charts. -/
theorem agg_idempotent_refresh_deterministic (d : Dimension) (T : Nat)
    (filt : Option String) (now : Nat) (s1 s2 : Store)
    (h : s1.events = s2.events) (c1 c2 : DashCharts) (resp : StatsResponse) :
    aggQuery d T filt now s1 = aggQuery d T filt now s2 ∧
    updateDashboard c1 resp = updateDashboard c2 resp := by
  constructor
  · unfold aggQuery aggWindow
    rw [h]
  · rfl

/-- Witness for C6: two stores with the same events (different identity
counters) give the same bandwidth aggregation, and refreshing a dirty
dashboard equals refreshing an empty one on the same response. -/
theorem agg_idempotent_refresh_deterministic_witness :
    (Store.mk [sampleEvent] [] 5).events = (Store.mk [sampleEvent] [] 9).events ∧
    (aggQuery Dimension.bandwidth 60 none 100 (Store.mk [sampleEvent] [] 5) =
       aggQuery Dimension.bandwidth 60 none 100 (Store.mk [sampleEvent] [] 9) ∧
     updateDashboard ⟨Chart.empty, Chart.empty, Chart.empty, Chart.empty⟩
         ⟨[⟨"Israel", 2⟩], [], [], []⟩ =
       updateDashboard ⟨⟨["stale"], [9]⟩, Chart.empty, Chart.empty, Chart.empty⟩
         ⟨[⟨"Israel", 2⟩], [], [], []⟩) :=
  ⟨rfl,
   agg_idempotent_refresh_deterministic Dimension.bandwidth 60 none 100
     (Store.mk [sampleEvent] [] 5) (Store.mk [sampleEvent] [] 9) rfl
     ⟨Chart.empty, Chart.empty, Chart.empty, Chart.empty⟩
     ⟨⟨["stale"], [9]⟩, Chart.empty, Chart.empty, Chart.empty⟩
     ⟨[⟨"Israel", 2⟩], [], [], []⟩⟩

/-- Claim C7: the broadcast fan-out applies each subscriber's optional
agent-id filter server-side — every subscriber an event is pushed to
matches it, so a viewer with filter `a` only ever receives events whose
agent identifier is `a`. -/
theorem push_respects_filter (subs : List Subscriber) (e : TrafficEvent)
    (sub : Subscriber) (h : sub ∈ pushTargets subs e) :
    filterMatches sub e = true ∧
    ∀ a, sub.agentFilter = some a → e.agent_id = a := by
  have hm : filterMatches sub e = true := by
    have := List.mem_filter.mp h
    simpa using this.2
  refine ⟨hm, ?_⟩
  intro a ha
  unfold filterMatches at hm
  rw [ha] at hm
  exact (eq_of_beq hm).symm

/-- Witness for C7: of two subscribers with filters `A` and `B`, the sample
event (agent `A`) is pushed to the `A` subscriber, whose filter it
satisfies. -/
theorem push_respects_filter_witness :
    (Subscriber.mk 1 (some "A")) ∈
      pushTargets [⟨1, some "A"⟩, ⟨2, some "B"⟩] sampleEvent ∧
    (filterMatches ⟨1, some "A"⟩ sampleEvent = true ∧
     ∀ a, (Subscriber.mk 1 (some "A")).agentFilter = some a →
       sampleEvent.agent_id = a) :=
  ⟨by decide,
   push_respects_filter [⟨1, some "A"⟩, ⟨2, some "B"⟩] sampleEvent
     ⟨1, some "A"⟩ (by decide)⟩

/-- Counterexample for C8: the dashboard's `updateLog` reads the field
`alert` from received messages (scripts.js line 101), and `alert` is not
among the specified live-event-message fields. -/
theorem dashboard_reads_alert_cex :
    "alert" ∈ dashboardReadFields ∧ "alert" ∉ liveMessageFields := by
  decide

/-- Claim C8 (amended): every field the dashboard reads from a received
live-event message, other than the boolean `alert` flag, is one of the
specified live-event-message fields. -/
theorem dashboard_fields_except_alert (f : String)
    (h1 : f ∈ dashboardReadFields) (h2 : f ≠ "alert") :
    f ∈ liveMessageFields := by
  simp only [dashboardReadFields, List.mem_cons, List.not_mem_nil, or_false] at h1
  rcases h1 with rfl | rfl | rfl | rfl | rfl | rfl | rfl
  · decide
  · decide
  · decide
  · decide
  · decide
  · decide
  · exact absurd rfl h2

/-- Witness for C8 (amended): `country` is read by the dashboard, differs
from `alert`, and is a specified live-event-message field. -/
theorem dashboard_fields_except_alert_witness :
    ("country" ∈ dashboardReadFields ∧ "country" ≠ "alert") ∧
    "country" ∈ liveMessageFields :=
  ⟨by decide, dashboard_fields_except_alert "country" (by decide) (by decide)⟩

/-- Claim C9: starting from any log with at most 50 entries, `updateLog`
prepends the incoming entry (it becomes the head), the resulting length is
the old length plus one capped at 50, the 50-entry bound is preserved, and
when the log was full the oldest (last) entry is the one removed. -/
theorem updateLog_bound_invariant (log : List String) (e : String)
    (h : log.length ≤ 50) :
    (updateLog log e).length ≤ 50 ∧
    (updateLog log e).head? = some e ∧
    (updateLog log e).length = min (log.length + 1) 50 ∧
    (log.length = 50 → updateLog log e = (e :: log).dropLast) := by
  unfold updateLog
  by_cases hc : 50 < (e :: log).length
  · rw [if_pos hc]
    simp only [List.length_cons] at hc
    have h50 : log.length = 50 := by omega
    refine ⟨?_, ?_, ?_, fun _ => rfl⟩
    · rw [List.length_dropLast]
      simp only [List.length_cons]
      omega
    · cases log with
      | nil => simp at h50
      | cons a t => simp
    · rw [List.length_dropLast]
      simp only [List.length_cons]
      omega
  · rw [if_neg hc]
    simp only [List.length_cons] at hc
    refine ⟨?_, rfl, ?_, ?_⟩
    · simp only [List.length_cons]
      omega
    · simp only [List.length_cons]
      omega
    · intro h50
      exfalso
      omega

/-- Witness for C9: prepending `x` to a two-entry log keeps the bound, puts
`x` at the head, and grows the length to three. -/
theorem updateLog_bound_invariant_witness :
    (["a", "b"] : List String).length ≤ 50 ∧
    ((updateLog ["a", "b"] "x").length ≤ 50 ∧
     (updateLog ["a", "b"] "x").head? = some "x" ∧
     (updateLog ["a", "b"] "x").length =
       min ((["a", "b"] : List String).length + 1) 50 ∧
     ((["a", "b"] : List String).length = 50 →
        updateLog ["a", "b"] "x" = ("x" :: ["a", "b"]).dropLast)) :=
  ⟨by decide, updateLog_bound_invariant ["a", "b"] "x" (by decide)⟩

/-- Counterexample for C10: for a country absent from the coordinate table
(here `France`), the ping position depends on the `Math.random()` draws —
two runs on the same message can place the ping at different coordinates,
so the location is not a function of the event's country. -/
theorem ping_random_cex :
    addPing "France" 0 0 ≠ addPing "France" (1 / 2) (1 / 2) := by
  have hf : countryCoords "France" = none := by decide
  unfold addPing
  rw [hf]
  norm_num [Prod.ext_iff]

/-- Claim C10 (amended): for every outgoing event whose country appears in
the `countryCoords` table, the ping position is a deterministic function of
the country — it does not depend on the random draws; for other countries
the position is random in the 0..50 square. -/
theorem ping_deterministic_for_known (c : String) (r1 r2 q1 q2 : ℚ)
    (h : (countryCoords c).isSome = true) :
    addPing c r1 r2 = addPing c q1 q2 := by
  unfold addPing
  cases hc : countryCoords c with
  | none =>
    rw [hc] at h
    simp at h
  | some p => rfl

/-- Witness for C10 (amended): `Israel` is in the table, and the ping for an
Israel-bound event lands at the same place for two different random
draws. -/
theorem ping_deterministic_for_known_witness :
    (countryCoords "Israel").isSome = true ∧
    addPing "Israel" 0 0 = addPing "Israel" (1 / 3) (2 / 3) :=
  ⟨by decide,
   ping_deterministic_for_known "Israel" 0 0 (1 / 3) (2 / 3) (by decide)⟩
